import Mathlib

/-!
Shallow embedding of `src/Source/customWaterfall/src/barChart.ts`, the
waterfall custom visual's view-model transform (`visualTransform`) and the
Y-scale domain computation in `update`.

Modelling conventions:
* JS numbers are modelled as exact rationals (`Rat`); the claims are about
  the arithmetic structure of the transform, not about floating-point
  rounding.
* Optional / possibly-`undefined` fields are `Option`s.  A JS `TypeError`
  (reading a property of `undefined`) is modelled by the transform
  returning `none`; a normal return is `some`.
* JS array indexing out of range yields `undefined` without throwing; it is
  modelled by `List.getD` with a default.  The claims about the populated
  path all assume the category column and the measure column have the same
  length, so that default is never consulted there.
* The host's selection-id builder is modelled as a deterministic record of
  the data it is fed (`withCategory` index and `withMeasure` name).
-/

/-- Column metadata: the only field the transform reads is `displayName`. -/
structure ColumnSource where
  displayName : String
deriving Repr, DecidableEq

/-- One category column of the categorical data view (`categories[k]`).
`source` is optional because the guard at line 143 tests it. -/
structure DataViewCategoryColumn where
  source : Option ColumnSource
  values : List String
deriving Repr, DecidableEq

/-- One measure column of the categorical data view (`values[k]`). -/
structure DataViewValueColumn where
  source : ColumnSource
  values : List Rat
deriving Repr, DecidableEq

/-- The categorical part of a data view.  Both arrays may be absent
(`undefined` in JS), which the guard at lines 139-144 tests. -/
structure DataViewCategorical where
  categories : Option (List DataViewCategoryColumn)
  values : Option (List DataViewValueColumn)
deriving Repr, DecidableEq

/-- Data-view metadata.  Line 147 reads `metadata.objects`; the `objects`
field itself is never used afterwards, so its content is irrelevant. -/
structure DataViewMetadata where
  objects : Option Unit
deriving Repr, DecidableEq

/-- A data view: the transform only touches `categorical` and `metadata`. -/
structure DataView where
  categorical : Option DataViewCategorical
  metadata : Option DataViewMetadata
deriving Repr, DecidableEq

/-- The slice of `VisualUpdateOptions` that `visualTransform` reads. -/
structure VisualUpdateOptions where
  dataViews : Option (List DataView)
deriving Repr, DecidableEq

/-- `BarChartSettings` with the class-initializer defaults (lines 30-35). -/
structure BarChartSettings where
  autoAdjustment : Bool := true
  positiveColor : String := "red"
  negativeColor : String := "blue"
  totalColor : String := "green"
deriving Repr, DecidableEq

/-- `VisualSettings` (line 37-39): wraps the bar-chart settings. -/
structure VisualSettings where
  barCharSettings : BarChartSettings := {}
deriving Repr, DecidableEq

/-- Host-built selection id, modelled as the deterministic record of what the
builder is fed: `.withCategory(category, i).withMeasure(displayName)`. -/
structure ISelectionId where
  categoryIndex : Nat
  measure : String
deriving Repr, DecidableEq

/-- `BarChartDataPoint` (lines 52-61). -/
structure BarChartDataPoint where
  value : Rat
  category : String
  start : Rat
  «end» : Rat
  «class» : String
  selectionId : ISelectionId
  color : String
  columnLabel : String
deriving Repr, DecidableEq

/-- `BarChartViewModel` (lines 16-22). -/
structure BarChartViewModel where
  dataPoints : List BarChartDataPoint
  dataMax : Rat
  dataMin : Rat
  dataAdjustment : Rat
  settings : BarChartSettings
deriving Repr, DecidableEq

/-- The mutable fields of the `BarChart` class instance that the modelled
code can read: `visualTransform` reads `this.visualSettings`; `locale` and
`barChartSettings` are other instance fields, carried to express that the
transform does not depend on them. -/
structure BarChartState where
  locale : String
  barChartSettings : BarChartSettings
  visualSettings : VisualSettings
deriving Repr, DecidableEq

/-- The fallback view model built at lines 132-138: empty points, zeroes,
and a fresh default `BarChartSettings`. -/
def emptyViewModel : BarChartViewModel :=
  { dataPoints := [], dataMax := 0, dataMin := 0, dataAdjustment := 0,
    settings := {} }

/-- One iteration body of the loop at lines 159-195: the data point pushed
at index `i` (total branch when `i = len - 1`, lines 161-176; otherwise the
running branch, lines 177-192) given the running `cumulative` sum. -/
def mkDataPoint (bset : BarChartSettings) (category : DataViewCategoryColumn)
    (catSource : ColumnSource) (dataValue : DataViewValueColumn)
    (len i : Nat) (cumulative : Rat) : BarChartDataPoint :=
  let v := dataValue.values.getD i 0
  if i = len - 1 then
    { category := category.values.getD i "", value := v,
      start := 0, «end» := v, «class» := "total",
      selectionId := { categoryIndex := i, measure := dataValue.source.displayName },
      color := bset.totalColor, columnLabel := catSource.displayName }
  else
    { category := category.values.getD i "", value := v,
      start := cumulative, «end» := v + cumulative,
      «class» := if 0 ≤ v then "positive" else "negative",
      selectionId := { categoryIndex := i, measure := dataValue.source.displayName },
      color := if 0 ≤ v then bset.positiveColor else bset.negativeColor,
      columnLabel := catSource.displayName }

/-- The loop at lines 157-195, written by recursion on the number `r` of
remaining iterations (`i` is the current index, so `i + r = len` at the
initial call).  Returns the pushed data points and the final `dataMax`.
Each iteration pushes the point for index `i` built from the current
`cumulative`, then sets `dataMax = max dataMax cumulative` (line 193) and
`cumulative += values[i]` (line 194). -/
def buildPoints (bset : BarChartSettings) (category : DataViewCategoryColumn)
    (catSource : ColumnSource) (dataValue : DataViewValueColumn) (len : Nat) :
    Nat → Nat → Rat → Rat → List BarChartDataPoint × Rat
  | _, 0, _, dataMax => ([], dataMax)
  | i, r + 1, cumulative, dataMax =>
    let p := mkDataPoint bset category catSource dataValue len i cumulative
    let rest := buildPoints bset category catSource dataValue len (i + 1) r
      (cumulative + dataValue.values.getD i 0) (max dataMax cumulative)
    (p :: rest.1, rest.2)

/-- Lines 152-205: the populated path of `visualTransform`, once the guard
has passed and `category`, `dataValue` have been extracted.  `len` is
`Math.max(category.values.length, dataValue.values.length)` (line 159);
`dataAdjustment` is line 197.  (When `dataValue.values` is empty, JS would
read `values[-1]` as `undefined` and produce `NaN`; the `getD` default
stands in for that degenerate value, which no claim touches.) -/
def populate (bset : BarChartSettings) (category : DataViewCategoryColumn)
    (catSource : ColumnSource) (dataValue : DataViewValueColumn) :
    BarChartViewModel :=
  let len := max category.values.length dataValue.values.length
  let built := buildPoints bset category catSource dataValue len 0 len 0 0
  let vs := dataValue.values
  { dataPoints := built.1,
    dataMax := built.2,
    dataMin := 0,
    dataAdjustment :=
      built.2 - 2 * |built.2 - min (vs.getD (vs.length - 1) 0) (vs.getD 0 0)|,
    settings := bset }

/-- `visualTransform` (lines 128-206).  The guard at lines 139-145 is
translated test by test, in JS short-circuit order.  Three places fault
(return `none`):
* line 143 reads `categories[0].source` while `categories` is present but
  empty, so `categories[0]` is `undefined`;
* line 147 reads `dataViews[0].metadata.objects` while `metadata` is
  absent;
* line 159 reads `dataValue.values.length` while `categorical.values` is
  present but empty, so `dataValue = values[0]` is `undefined`. -/
def visualTransform (st : BarChartState) (options : VisualUpdateOptions) :
    Option BarChartViewModel :=
  match options.dataViews with
  | none => some emptyViewModel
  | some dataViews =>
  match dataViews.head? with
  | none => some emptyViewModel
  | some dv0 =>
  match dv0.categorical with
  | none => some emptyViewModel
  | some categorical =>
  match categorical.categories with
  | none => some emptyViewModel
  | some categories =>
  match categories.head? with
  | none => none
  | some cat0 =>
  match cat0.source with
  | none => some emptyViewModel
  | some catSource =>
  match categorical.values with
  | none => some emptyViewModel
  | some values =>
  match dv0.metadata with
  | none => none
  | some _ =>
  match values.head? with
  | none => none
  | some dataValue =>
  some (populate st.visualSettings.barCharSettings cat0 catSource dataValue)

/-- The Y-scale domain computed by `update` (lines 216-256), given the
parsed settings `parsed` (line 218 stores them into `this.visualSettings`
before calling `visualTransform`).  Line 220 takes
`adjustment = viewModel.dataAdjustment`; lines 234-237 force it to `0` when
`autoAdjustment` is off; lines 254-256 use `[adjustment, dataMax]` as the
linear y-scale domain. -/
def updateYScaleDomain (parsed : VisualSettings) (st : BarChartState)
    (options : VisualUpdateOptions) : Option (Rat × Rat) :=
  (visualTransform { st with visualSettings := parsed } options).map
    (fun vm =>
      let adjustment := vm.dataAdjustment
      let adjustment :=
        if !parsed.barCharSettings.autoAdjustment then 0 else adjustment
      (adjustment, vm.dataMax))

/-- Sum of `j` consecutive measure values starting at index `i`:
`vs[i] + vs[i+1] + ... + vs[i+j-1]` (with the `getD` default out of
range). -/
def sumFrom (vs : List Rat) (i : Nat) : Nat → Rat
  | 0 => 0
  | j + 1 => sumFrom vs i j + vs.getD (i + j) 0

/-- The input shapes that the guard at lines 139-145 catches and answers
with the fallback view model.  This mirrors the spec's list of malformed
shapes, restricted to the cases the guard can actually reach: when
`categories` is present but empty, evaluating the guard's own test
`categories[0].source` faults instead, so that shape is excluded here. -/
def malformedGuard (o : VisualUpdateOptions) : Bool :=
  match o.dataViews with
  | none => true
  | some dvs =>
  match dvs.head? with
  | none => true
  | some dv0 =>
  match dv0.categorical with
  | none => true
  | some c =>
  match c.categories with
  | none => true
  | some categories =>
  match categories.head? with
  | none => false
  | some cat0 =>
  match cat0.source with
  | none => true
  | some _ =>
  match c.values with
  | none => true
  | some _ => false

/-- The input shapes on which `visualTransform` faults (a JS `TypeError`):
`categories` present but empty (the guard's `categories[0].source` read),
`metadata` absent (`metadata.objects` at line 147), or `values` present but
empty (`dataValue.values.length` at line 159 with `dataValue` undefined). -/
def faultShape (o : VisualUpdateOptions) : Bool :=
  match o.dataViews with
  | none => false
  | some dvs =>
  match dvs.head? with
  | none => false
  | some dv0 =>
  match dv0.categorical with
  | none => false
  | some c =>
  match c.categories with
  | none => false
  | some categories =>
  match categories.head? with
  | none => true
  | some cat0 =>
  match cat0.source with
  | none => false
  | some _ =>
  match c.values with
  | none => false
  | some vals =>
  match dv0.metadata with
  | none => true
  | some _ =>
  match vals.head? with
  | none => true
  | some _ => false

/-! ### Concrete inputs used by the witnesses and counterexamples -/

/-- A concrete instance state: default settings, an arbitrary locale. -/
def stEx : BarChartState :=
  { locale := "en-US", barChartSettings := {}, visualSettings := {} }

/-- A concrete measure column with values `5, -2, 3`. -/
def valColEx : DataViewValueColumn :=
  { source := { displayName := "Sales" }, values := [5, -2, 3] }

/-- A concrete category column with three categories. -/
def catColEx : DataViewCategoryColumn :=
  { source := some { displayName := "Month" }, values := ["Jan", "Feb", "Mar"] }

/-- The categorical data view pairing `catColEx` with `valColEx`. -/
def categoricalEx : DataViewCategorical :=
  { categories := some [catColEx], values := some [valColEx] }

/-- A well-formed data view over the example columns. -/
def dataViewEx : DataView :=
  { categorical := some categoricalEx, metadata := some { objects := none } }

/-- Well-formed update options over the example data view. -/
def optsEx : VisualUpdateOptions :=
  { dataViews := some [dataViewEx] }

/-- A categorical slice whose `values` is absent while `categories` is
present but empty. -/
def categoricalValuesAbsentEmptyCats : DataViewCategorical :=
  { categories := some [], values := none }

/-- Options whose `categorical.values` is absent while `categories` is
present but empty: a malformed shape in the sense of the guard, on which
the guard's own `categories[0].source` read nevertheless faults first. -/
def optsValuesAbsentEmptyCats : VisualUpdateOptions :=
  { dataViews := some [{ categorical := some categoricalValuesAbsentEmptyCats,
                         metadata := some { objects := none } }] }

/-- A categorical slice whose `categories` is present but empty, with a
well-formed measure column. -/
def categoricalEmptyCats : DataViewCategorical :=
  { categories := some [], values := some [valColEx] }

/-- Options that pass every guard test written in the source except that
`categories` is present but empty, so the guard's `categories[0].source`
read faults. -/
def optsEmptyCats : VisualUpdateOptions :=
  { dataViews := some [{ categorical := some categoricalEmptyCats,
                         metadata := some { objects := none } }] }

/-! ### Characterization of the loop -/

theorem sumFrom_succ_left (vs : List Rat) (i j : Nat) :
    sumFrom vs i (j + 1) = vs.getD i 0 + sumFrom vs (i + 1) j := by
  induction j with
  | zero => simp [sumFrom]
  | succ j ih =>
    have hidx : i + (j + 1) = i + 1 + j := by omega
    calc sumFrom vs i (j + 1 + 1)
        = sumFrom vs i (j + 1) + vs.getD (i + (j + 1)) 0 := rfl
      _ = (vs.getD i 0 + sumFrom vs (i + 1) j) + vs.getD (i + 1 + j) 0 := by
          rw [ih, hidx]
      _ = vs.getD i 0 + sumFrom vs (i + 1) (j + 1) := by
          rw [show sumFrom vs (i + 1) (j + 1)
              = sumFrom vs (i + 1) j + vs.getD (i + 1 + j) 0 from rfl]
          ring

theorem buildPoints_fst_length (bset : BarChartSettings)
    (category : DataViewCategoryColumn) (catSource : ColumnSource)
    (dataValue : DataViewValueColumn) (len : Nat) :
    ∀ r i c m,
      (buildPoints bset category catSource dataValue len i r c m).1.length = r := by
  intro r
  induction r with
  | zero => intro i c m; rfl
  | succ r ih => intro i c m; simp [buildPoints, ih]

theorem buildPoints_fst_get? (bset : BarChartSettings)
    (category : DataViewCategoryColumn) (catSource : ColumnSource)
    (dataValue : DataViewValueColumn) (len : Nat) :
    ∀ r i c m j, j < r →
      (buildPoints bset category catSource dataValue len i r c m).1.get? j =
        some (mkDataPoint bset category catSource dataValue len (i + j)
          (c + sumFrom dataValue.values i j)) := by
  intro r
  induction r with
  | zero => intro i c m j hj; omega
  | succ r ih =>
    intro i c m j hj
    cases j with
    | zero => simp [buildPoints, sumFrom]
    | succ j =>
      have hj' : j < r := by omega
      have h1 : i + 1 + j = i + (j + 1) := by omega
      have h2 : (c + dataValue.values.getD i 0) + sumFrom dataValue.values (i + 1) j
          = c + sumFrom dataValue.values i (j + 1) := by
        rw [sumFrom_succ_left]; ring
      calc (buildPoints bset category catSource dataValue len i (r + 1) c m).1.get? (j + 1)
          = (buildPoints bset category catSource dataValue len (i + 1) r
              (c + dataValue.values.getD i 0) (max m c)).1.get? j := rfl
        _ = some (mkDataPoint bset category catSource dataValue len (i + 1 + j)
              ((c + dataValue.values.getD i 0) + sumFrom dataValue.values (i + 1) j)) :=
            ih (i + 1) (c + dataValue.values.getD i 0) (max m c) j hj'
        _ = some (mkDataPoint bset category catSource dataValue len (i + (j + 1))
              (c + sumFrom dataValue.values i (j + 1))) := by rw [h1, h2]

theorem buildPoints_snd (bset : BarChartSettings)
    (category : DataViewCategoryColumn) (catSource : ColumnSource)
    (dataValue : DataViewValueColumn) (len : Nat) :
    ∀ r i c m,
      (buildPoints bset category catSource dataValue len i r c m).2 =
        (List.range r).foldl
          (fun a j => max a (c + sumFrom dataValue.values i j)) m := by
  intro r
  induction r with
  | zero => intro i c m; rfl
  | succ r ih =>
    intro i c m
    have hstep : (buildPoints bset category catSource dataValue len i (r + 1) c m).2
        = (buildPoints bset category catSource dataValue len (i + 1) r
            (c + dataValue.values.getD i 0) (max m c)).2 := rfl
    rw [hstep, ih, List.range_succ_eq_map, List.foldl_cons, List.foldl_map]
    have h0 : max m (c + sumFrom dataValue.values i 0) = max m c := by
      simp [sumFrom]
    rw [h0]
    refine List.foldl_ext _ _ _ ?_
    intro a j _
    rw [show Nat.succ j = j + 1 from rfl, sumFrom_succ_left]
    congr 1
    ring

theorem sum_take_getD (vs : List Rat) (i : Nat) (h : i < vs.length) :
    (vs.take (i + 1)).sum = (vs.take i).sum + vs.getD i 0 := by
  rw [List.take_succ, List.sum_append]
  congr 1
  rw [List.getElem?_eq_getElem h]
  simp [List.getD, List.getElem?_eq_getElem h]

theorem sumFrom_eq_sum_take (vs : List Rat) :
    ∀ i, i ≤ vs.length → sumFrom vs 0 i = (vs.take i).sum := by
  intro i
  induction i with
  | zero => intro _; simp [sumFrom]
  | succ i ih =>
    intro h
    have hi : i < vs.length := by omega
    calc sumFrom vs 0 (i + 1) = sumFrom vs 0 i + vs.getD (0 + i) 0 := rfl
      _ = (vs.take i).sum + vs.getD i 0 := by rw [ih (le_of_lt hi), Nat.zero_add]
      _ = (vs.take (i + 1)).sum := (sum_take_getD vs i hi).symm

/-! ### Facts about `populate` -/

theorem populate_dataPoints_length (bset : BarChartSettings)
    (category : DataViewCategoryColumn) (catSource : ColumnSource)
    (dataValue : DataViewValueColumn)
    (hlen : category.values.length = dataValue.values.length) :
    (populate bset category catSource dataValue).dataPoints.length =
      dataValue.values.length := by
  simp only [populate, hlen, Nat.max_self]
  exact buildPoints_fst_length bset category catSource dataValue _ _ 0 0 0

theorem populate_dataPoints_get? (bset : BarChartSettings)
    (category : DataViewCategoryColumn) (catSource : ColumnSource)
    (dataValue : DataViewValueColumn)
    (hlen : category.values.length = dataValue.values.length)
    (i : Nat) (hi : i < dataValue.values.length) :
    (populate bset category catSource dataValue).dataPoints.get? i =
      some (mkDataPoint bset category catSource dataValue
        dataValue.values.length i ((dataValue.values.take i).sum)) := by
  simp only [populate, hlen, Nat.max_self]
  rw [buildPoints_fst_get? bset category catSource dataValue _ _ 0 0 0 i hi]
  rw [sumFrom_eq_sum_take dataValue.values i (le_of_lt hi)]
  rw [Nat.zero_add, zero_add]

theorem populate_dataMax_eq (bset : BarChartSettings)
    (category : DataViewCategoryColumn) (catSource : ColumnSource)
    (dataValue : DataViewValueColumn)
    (hlen : category.values.length = dataValue.values.length) :
    (populate bset category catSource dataValue).dataMax =
      (List.range dataValue.values.length).foldl
        (fun a j => max a ((dataValue.values.take j).sum)) 0 := by
  simp only [populate, hlen, Nat.max_self]
  rw [buildPoints_snd bset category catSource dataValue _ _ 0 0 0]
  refine List.foldl_ext _ _ _ ?_
  intro a j hj
  rw [sumFrom_eq_sum_take dataValue.values j
    (le_of_lt (List.mem_range.mp hj)), zero_add]

theorem populate_dataAdjustment_eq (bset : BarChartSettings)
    (category : DataViewCategoryColumn) (catSource : ColumnSource)
    (dataValue : DataViewValueColumn) :
    (populate bset category catSource dataValue).dataAdjustment =
      (populate bset category catSource dataValue).dataMax -
        2 * |(populate bset category catSource dataValue).dataMax -
          min (dataValue.values.getD (dataValue.values.length - 1) 0)
              (dataValue.values.getD 0 0)| := rfl

theorem populate_settings_eq (bset : BarChartSettings)
    (category : DataViewCategoryColumn) (catSource : ColumnSource)
    (dataValue : DataViewValueColumn) :
    (populate bset category catSource dataValue).settings = bset := rfl

/-! ### Reduction of `visualTransform` on well-shaped input -/

theorem visualTransform_populated (st : BarChartState)
    (o : VisualUpdateOptions) (dvs : List DataView) (dv0 : DataView)
    (c : DataViewCategorical) (cats : List DataViewCategoryColumn)
    (cat0 : DataViewCategoryColumn) (catSource : ColumnSource)
    (vals : List DataViewValueColumn) (md : DataViewMetadata)
    (dataValue : DataViewValueColumn)
    (h1 : o.dataViews = some dvs) (h2 : dvs.head? = some dv0)
    (h3 : dv0.categorical = some c) (h4 : c.categories = some cats)
    (h5 : cats.head? = some cat0) (h6 : cat0.source = some catSource)
    (h7 : c.values = some vals) (h8 : dv0.metadata = some md)
    (h9 : vals.head? = some dataValue) :
    visualTransform st o =
      some (populate st.visualSettings.barCharSettings cat0 catSource dataValue) := by
  simp only [visualTransform, h1, h2, h3, h4, h5, h6, h7, h8, h9]

theorem populate_point_inv (bset : BarChartSettings)
    (category : DataViewCategoryColumn) (catSource : ColumnSource)
    (dataValue : DataViewValueColumn)
    (hlen : category.values.length = dataValue.values.length)
    (i : Nat) (p : BarChartDataPoint)
    (h : (populate bset category catSource dataValue).dataPoints.get? i = some p) :
    i < dataValue.values.length ∧
      p = mkDataPoint bset category catSource dataValue dataValue.values.length i
        ((dataValue.values.take i).sum) := by
  have hi : i < dataValue.values.length := by
    by_contra hge
    rw [List.get?_eq_none.mpr
      (by rw [populate_dataPoints_length bset category catSource dataValue hlen]; omega)] at h
    exact Option.noConfusion h
  refine ⟨hi, ?_⟩
  have := populate_dataPoints_get? bset category catSource dataValue hlen i hi
  rw [h] at this
  exact Option.some.inj this

theorem le_foldl_max (f : Nat → Rat) :
    ∀ (l : List Nat) (init : Rat),
      init ≤ l.foldl (fun a j => max a (f j)) init := by
  intro l
  induction l with
  | nil => intro init; simp
  | cons x xs ih =>
    intro init
    rw [List.foldl_cons]
    exact le_trans (le_max_left init (f x)) (ih (max init (f x)))

/-! ### The claims -/

/-- C1: on a valid categorical input with measure values `v_0 .. v_{n-1}`
(equal-length category and measure columns), every data point at a
non-final index `i` has `start` equal to `v_0 + ... + v_{i-1}` (so
`start_0 = 0`, the empty sum) and `end = start + v_i`; moreover
`end_i = v_0 + ... + v_i`, which is exactly `start_{i+1}` whenever index
`i + 1` is also non-final, so consecutive non-final points chain as a
running cumulative sum. -/
theorem visualTransform_runningSum (st : BarChartState)
    (o : VisualUpdateOptions) (dvs : List DataView) (dv0 : DataView)
    (c : DataViewCategorical) (cats : List DataViewCategoryColumn)
    (cat0 : DataViewCategoryColumn) (catSource : ColumnSource)
    (vals : List DataViewValueColumn) (md : DataViewMetadata)
    (dataValue : DataViewValueColumn)
    (h1 : o.dataViews = some dvs) (h2 : dvs.head? = some dv0)
    (h3 : dv0.categorical = some c) (h4 : c.categories = some cats)
    (h5 : cats.head? = some cat0) (h6 : cat0.source = some catSource)
    (h7 : c.values = some vals) (h8 : dv0.metadata = some md)
    (h9 : vals.head? = some dataValue)
    (hlen : cat0.values.length = dataValue.values.length)
    (i : Nat) (hi : i + 1 < dataValue.values.length) :
    ∃ vm p, visualTransform st o = some vm ∧
      vm.dataPoints.get? i = some p ∧
      p.start = (dataValue.values.take i).sum ∧
      p.«end» = p.start + dataValue.values.getD i 0 ∧
      p.«end» = (dataValue.values.take (i + 1)).sum := by
  have hne : i ≠ dataValue.values.length - 1 := by omega
  refine ⟨_, _,
    visualTransform_populated st o dvs dv0 c cats cat0 catSource vals md
      dataValue h1 h2 h3 h4 h5 h6 h7 h8 h9,
    populate_dataPoints_get? st.visualSettings.barCharSettings cat0 catSource
      dataValue hlen i (by omega), ?_, ?_, ?_⟩
  · simp [mkDataPoint, hne]
  · simp [mkDataPoint, hne]
    ring
  · simp [mkDataPoint, hne]
    rw [sum_take_getD dataValue.values i (by omega),
      List.getD_eq_getElem?_getD]
    ring

/-- Witness for C1: the example input `5, -2, 3` at index `i = 1`. -/
theorem visualTransform_runningSum_witness :
    ∃ vm p, visualTransform stEx optsEx = some vm ∧
      vm.dataPoints.get? 1 = some p ∧
      p.start = (valColEx.values.take 1).sum ∧
      p.«end» = p.start + valColEx.values.getD 1 0 ∧
      p.«end» = (valColEx.values.take (1 + 1)).sum :=
  visualTransform_runningSum stEx optsEx [dataViewEx] dataViewEx
    categoricalEx [catColEx] catColEx { displayName := "Month" } [valColEx]
    { objects := none } valColEx rfl rfl rfl rfl rfl rfl rfl rfl rfl rfl
    1 (by decide)

/-- C2: on a valid non-empty categorical input with `n` measure values,
the produced point list has length `n`; the point at the last index
`n - 1` has class `total`, `start = 0` and `end` equal to its own measure
value `v_{n-1}`; and no point at a non-final index has class `total`. -/
theorem visualTransform_totalLast (st : BarChartState)
    (o : VisualUpdateOptions) (dvs : List DataView) (dv0 : DataView)
    (c : DataViewCategorical) (cats : List DataViewCategoryColumn)
    (cat0 : DataViewCategoryColumn) (catSource : ColumnSource)
    (vals : List DataViewValueColumn) (md : DataViewMetadata)
    (dataValue : DataViewValueColumn)
    (h1 : o.dataViews = some dvs) (h2 : dvs.head? = some dv0)
    (h3 : dv0.categorical = some c) (h4 : c.categories = some cats)
    (h5 : cats.head? = some cat0) (h6 : cat0.source = some catSource)
    (h7 : c.values = some vals) (h8 : dv0.metadata = some md)
    (h9 : vals.head? = some dataValue)
    (hlen : cat0.values.length = dataValue.values.length)
    (hn : 0 < dataValue.values.length) :
    ∃ vm, visualTransform st o = some vm ∧
      vm.dataPoints.length = dataValue.values.length ∧
      (∃ p, vm.dataPoints.get? (dataValue.values.length - 1) = some p ∧
        p.«class» = "total" ∧ p.start = 0 ∧
        p.«end» = dataValue.values.getD (dataValue.values.length - 1) 0) ∧
      (∀ i p, i + 1 < dataValue.values.length →
        vm.dataPoints.get? i = some p → p.«class» ≠ "total") := by
  refine ⟨_,
    visualTransform_populated st o dvs dv0 c cats cat0 catSource vals md
      dataValue h1 h2 h3 h4 h5 h6 h7 h8 h9,
    populate_dataPoints_length st.visualSettings.barCharSettings cat0
      catSource dataValue hlen, ⟨_,
    populate_dataPoints_get? st.visualSettings.barCharSettings cat0
      catSource dataValue hlen (dataValue.values.length - 1) (by omega),
    ?_, ?_, ?_⟩, ?_⟩
  · simp [mkDataPoint]
  · simp [mkDataPoint]
  · simp [mkDataPoint]
  · intro i p hi hp
    obtain ⟨-, hpeq⟩ := populate_point_inv st.visualSettings.barCharSettings
      cat0 catSource dataValue hlen i p hp
    have hne : i ≠ dataValue.values.length - 1 := by omega
    subst hpeq
    simp only [mkDataPoint, if_neg hne]
    split <;> simp

/-- Witness for C2: the example input `5, -2, 3` (`n = 3`). -/
theorem visualTransform_totalLast_witness :
    ∃ vm, visualTransform stEx optsEx = some vm ∧
      vm.dataPoints.length = valColEx.values.length ∧
      (∃ p, vm.dataPoints.get? (valColEx.values.length - 1) = some p ∧
        p.«class» = "total" ∧ p.start = 0 ∧
        p.«end» = valColEx.values.getD (valColEx.values.length - 1) 0) ∧
      (∀ i p, i + 1 < valColEx.values.length →
        vm.dataPoints.get? i = some p → p.«class» ≠ "total") :=
  visualTransform_totalLast stEx optsEx [dataViewEx] dataViewEx
    categoricalEx [catColEx] catColEx { displayName := "Month" } [valColEx]
    { objects := none } valColEx rfl rfl rfl rfl rfl rfl rfl rfl rfl rfl
    (by decide)

/-- C3: on a valid categorical input, every non-final point is classified
`positive` when its measure value is `>= 0` and `negative` otherwise; every
point's class is one of `positive`, `negative`, `total`; and each point's
color is the parsed settings' `positiveColor`, `negativeColor` or
`totalColor` matching its class (the returned view model's `settings` being
those parsed settings). -/
theorem visualTransform_classColor (st : BarChartState)
    (o : VisualUpdateOptions) (dvs : List DataView) (dv0 : DataView)
    (c : DataViewCategorical) (cats : List DataViewCategoryColumn)
    (cat0 : DataViewCategoryColumn) (catSource : ColumnSource)
    (vals : List DataViewValueColumn) (md : DataViewMetadata)
    (dataValue : DataViewValueColumn)
    (h1 : o.dataViews = some dvs) (h2 : dvs.head? = some dv0)
    (h3 : dv0.categorical = some c) (h4 : c.categories = some cats)
    (h5 : cats.head? = some cat0) (h6 : cat0.source = some catSource)
    (h7 : c.values = some vals) (h8 : dv0.metadata = some md)
    (h9 : vals.head? = some dataValue)
    (hlen : cat0.values.length = dataValue.values.length) :
    ∃ vm, visualTransform st o = some vm ∧
      vm.settings = st.visualSettings.barCharSettings ∧
      ∀ i p, vm.dataPoints.get? i = some p →
        (i + 1 < dataValue.values.length →
          p.«class» = (if 0 ≤ dataValue.values.getD i 0
            then "positive" else "negative")) ∧
        (p.«class» = "positive" ∨ p.«class» = "negative" ∨ p.«class» = "total") ∧
        (p.«class» = "positive" →
          p.color = st.visualSettings.barCharSettings.positiveColor) ∧
        (p.«class» = "negative" →
          p.color = st.visualSettings.barCharSettings.negativeColor) ∧
        (p.«class» = "total" →
          p.color = st.visualSettings.barCharSettings.totalColor) := by
  refine ⟨_,
    visualTransform_populated st o dvs dv0 c cats cat0 catSource vals md
      dataValue h1 h2 h3 h4 h5 h6 h7 h8 h9, rfl, ?_⟩
  intro i p hp
  obtain ⟨hi, hpeq⟩ := populate_point_inv st.visualSettings.barCharSettings
    cat0 catSource dataValue hlen i p hp
  subst hpeq
  by_cases hne : i = dataValue.values.length - 1
  · refine ⟨fun hlt => absurd hlt (by omega), ?_, ?_, ?_, ?_⟩ <;>
      simp [mkDataPoint, hne]
  · simp only [mkDataPoint, if_neg hne]
    by_cases hv : (0 : Rat) ≤ dataValue.values.getD i 0
    · simp only [if_pos hv]
      simp
    · simp only [if_neg hv]
      simp

/-- Witness for C3: the example input `5, -2, 3`. -/
theorem visualTransform_classColor_witness :
    ∃ vm, visualTransform stEx optsEx = some vm ∧
      vm.settings = stEx.visualSettings.barCharSettings ∧
      ∀ i p, vm.dataPoints.get? i = some p →
        (i + 1 < valColEx.values.length →
          p.«class» = (if 0 ≤ valColEx.values.getD i 0
            then "positive" else "negative")) ∧
        (p.«class» = "positive" ∨ p.«class» = "negative" ∨ p.«class» = "total") ∧
        (p.«class» = "positive" →
          p.color = stEx.visualSettings.barCharSettings.positiveColor) ∧
        (p.«class» = "negative" →
          p.color = stEx.visualSettings.barCharSettings.negativeColor) ∧
        (p.«class» = "total" →
          p.color = stEx.visualSettings.barCharSettings.totalColor) :=
  visualTransform_classColor stEx optsEx [dataViewEx] dataViewEx
    categoricalEx [catColEx] catColEx { displayName := "Month" } [valColEx]
    { objects := none } valColEx rfl rfl rfl rfl rfl rfl rfl rfl rfl rfl

/-- C8: on a valid categorical input with `n` measure values, `dataMax` is
the maximum of `0` and the proper prefix sums: the fold ranges over
`j = 0 .. n-1` and takes `(v_0 + ... + v_{j-1})`, so the full cumulative
total `v_0 + ... + v_{n-1}` is excluded, and `dataMax` is never below the
initial `0`. -/
theorem visualTransform_dataMax_prefix (st : BarChartState)
    (o : VisualUpdateOptions) (dvs : List DataView) (dv0 : DataView)
    (c : DataViewCategorical) (cats : List DataViewCategoryColumn)
    (cat0 : DataViewCategoryColumn) (catSource : ColumnSource)
    (vals : List DataViewValueColumn) (md : DataViewMetadata)
    (dataValue : DataViewValueColumn)
    (h1 : o.dataViews = some dvs) (h2 : dvs.head? = some dv0)
    (h3 : dv0.categorical = some c) (h4 : c.categories = some cats)
    (h5 : cats.head? = some cat0) (h6 : cat0.source = some catSource)
    (h7 : c.values = some vals) (h8 : dv0.metadata = some md)
    (h9 : vals.head? = some dataValue)
    (hlen : cat0.values.length = dataValue.values.length) :
    ∃ vm, visualTransform st o = some vm ∧
      vm.dataMax = (List.range dataValue.values.length).foldl
        (fun a j => max a ((dataValue.values.take j).sum)) 0 ∧
      0 ≤ vm.dataMax := by
  refine ⟨_,
    visualTransform_populated st o dvs dv0 c cats cat0 catSource vals md
      dataValue h1 h2 h3 h4 h5 h6 h7 h8 h9,
    populate_dataMax_eq st.visualSettings.barCharSettings cat0 catSource
      dataValue hlen, ?_⟩
  rw [populate_dataMax_eq st.visualSettings.barCharSettings cat0 catSource
    dataValue hlen]
  exact le_foldl_max (fun j => (dataValue.values.take j).sum)
    (List.range dataValue.values.length) 0

/-- Witness for C8: the example input `5, -2, 3`, where the prefix sums
are `0, 5, 3` and `dataMax = 5`. -/
theorem visualTransform_dataMax_prefix_witness :
    ∃ vm, visualTransform stEx optsEx = some vm ∧
      vm.dataMax = (List.range valColEx.values.length).foldl
        (fun a j => max a ((valColEx.values.take j).sum)) 0 ∧
      0 ≤ vm.dataMax :=
  visualTransform_dataMax_prefix stEx optsEx [dataViewEx] dataViewEx
    categoricalEx [catColEx] catColEx { displayName := "Month" } [valColEx]
    { objects := none } valColEx rfl rfl rfl rfl rfl rfl rfl rfl rfl rfl

/-- C9: on a valid categorical input, `dataAdjustment` is
`dataMax - 2 * |dataMax - min v_{n-1} v_0|`, and any other valid input
producing the same `dataMax`, the same first measure value and the same
last measure value produces the same `dataAdjustment` (no dependence on
intermediate values). -/
theorem visualTransform_dataAdjustment_formula (st : BarChartState)
    (o : VisualUpdateOptions) (dvs : List DataView) (dv0 : DataView)
    (c : DataViewCategorical) (cats : List DataViewCategoryColumn)
    (cat0 : DataViewCategoryColumn) (catSource : ColumnSource)
    (vals : List DataViewValueColumn) (md : DataViewMetadata)
    (dataValue : DataViewValueColumn)
    (h1 : o.dataViews = some dvs) (h2 : dvs.head? = some dv0)
    (h3 : dv0.categorical = some c) (h4 : c.categories = some cats)
    (h5 : cats.head? = some cat0) (h6 : cat0.source = some catSource)
    (h7 : c.values = some vals) (h8 : dv0.metadata = some md)
    (h9 : vals.head? = some dataValue)
    (hn : 0 < dataValue.values.length) :
    ∃ vm, visualTransform st o = some vm ∧
      vm.dataAdjustment = vm.dataMax -
        2 * |vm.dataMax -
          min (dataValue.values.getD (dataValue.values.length - 1) 0)
              (dataValue.values.getD 0 0)| ∧
      (∀ (st' : BarChartState) (o' : VisualUpdateOptions)
        (dvs' : List DataView) (dv0' : DataView) (c' : DataViewCategorical)
        (cats' : List DataViewCategoryColumn)
        (cat0' : DataViewCategoryColumn) (catSource' : ColumnSource)
        (vals' : List DataViewValueColumn) (md' : DataViewMetadata)
        (dataValue' : DataViewValueColumn) (vm' : BarChartViewModel),
        o'.dataViews = some dvs' → dvs'.head? = some dv0' →
        dv0'.categorical = some c' → c'.categories = some cats' →
        cats'.head? = some cat0' → cat0'.source = some catSource' →
        c'.values = some vals' → dv0'.metadata = some md' →
        vals'.head? = some dataValue' →
        visualTransform st' o' = some vm' →
        vm'.dataMax = vm.dataMax →
        dataValue'.values.getD 0 0 = dataValue.values.getD 0 0 →
        dataValue'.values.getD (dataValue'.values.length - 1) 0 =
          dataValue.values.getD (dataValue.values.length - 1) 0 →
        vm'.dataAdjustment = vm.dataAdjustment) := by
  refine ⟨_,
    visualTransform_populated st o dvs dv0 c cats cat0 catSource vals md
      dataValue h1 h2 h3 h4 h5 h6 h7 h8 h9,
    populate_dataAdjustment_eq st.visualSettings.barCharSettings cat0
      catSource dataValue, ?_⟩
  intro st' o' dvs' dv0' c' cats' cat0' catSource' vals' md' dataValue' vm'
    g1 g2 g3 g4 g5 g6 g7 g8 g9 g10 gmax g0 glast
  have hred := visualTransform_populated st' o' dvs' dv0' c' cats' cat0'
    catSource' vals' md' dataValue' g1 g2 g3 g4 g5 g6 g7 g8 g9
  rw [g10] at hred
  have hvm' := Option.some.inj hred
  subst hvm'
  rw [populate_dataAdjustment_eq, populate_dataAdjustment_eq, gmax, g0, glast]

/-- Witness for C9: the example input `5, -2, 3`, where
`dataAdjustment = 5 - 2 * |5 - min 3 5| = 1`. -/
theorem visualTransform_dataAdjustment_formula_witness :
    ∃ vm, visualTransform stEx optsEx = some vm ∧
      vm.dataAdjustment = vm.dataMax -
        2 * |vm.dataMax -
          min (valColEx.values.getD (valColEx.values.length - 1) 0)
              (valColEx.values.getD 0 0)| ∧
      (∀ (st' : BarChartState) (o' : VisualUpdateOptions)
        (dvs' : List DataView) (dv0' : DataView) (c' : DataViewCategorical)
        (cats' : List DataViewCategoryColumn)
        (cat0' : DataViewCategoryColumn) (catSource' : ColumnSource)
        (vals' : List DataViewValueColumn) (md' : DataViewMetadata)
        (dataValue' : DataViewValueColumn) (vm' : BarChartViewModel),
        o'.dataViews = some dvs' → dvs'.head? = some dv0' →
        dv0'.categorical = some c' → c'.categories = some cats' →
        cats'.head? = some cat0' → cat0'.source = some catSource' →
        c'.values = some vals' → dv0'.metadata = some md' →
        vals'.head? = some dataValue' →
        visualTransform st' o' = some vm' →
        vm'.dataMax = vm.dataMax →
        dataValue'.values.getD 0 0 = valColEx.values.getD 0 0 →
        dataValue'.values.getD (dataValue'.values.length - 1) 0 =
          valColEx.values.getD (valColEx.values.length - 1) 0 →
        vm'.dataAdjustment = vm.dataAdjustment) :=
  visualTransform_dataAdjustment_formula stEx optsEx [dataViewEx] dataViewEx
    categoricalEx [catColEx] catColEx { displayName := "Month" } [valColEx]
    { objects := none } valColEx rfl rfl rfl rfl rfl rfl rfl rfl rfl
    (by decide)

/-- C10: every view model that `visualTransform` returns (fallback or
populated) has `dataMin = 0`: the fallback sets it at line 135 and the
populated return sets it at line 202, independently of the measure
values. -/
theorem visualTransform_dataMin_zero (st : BarChartState)
    (o : VisualUpdateOptions) (vm : BarChartViewModel)
    (h : visualTransform st o = some vm) : vm.dataMin = 0 := by
  unfold visualTransform at h
  repeat' split at h
  all_goals
    first
    | exact Option.noConfusion h
    | (obtain rfl := Option.some.inj h; rfl)

/-- Witness for C10: the populated view model of the example input (whose
values and sums include negatives) has `dataMin = 0`. -/
theorem visualTransform_dataMin_zero_witness :
    (populate stEx.visualSettings.barCharSettings catColEx
      { displayName := "Month" } valColEx).dataMin = 0 :=
  visualTransform_dataMin_zero stEx optsEx
    (populate stEx.visualSettings.barCharSettings catColEx
      { displayName := "Month" } valColEx) rfl

/-- C4 (amended): each malformed shape the guard can reach - `dataViews`
absent, `dataViews[0]` absent, `categorical` absent, `categories` absent,
or, provided `categories` is non-empty, `categories[0].source` absent or
`values` absent - makes `visualTransform` return the empty view model with
default settings.  (When `categories` is present but empty the guard's own
`categories[0].source` read faults instead; see the counterexample.) -/
theorem visualTransform_guard_fallback (st : BarChartState)
    (o : VisualUpdateOptions) (h : malformedGuard o = true) :
    visualTransform st o = some emptyViewModel := by
  obtain ⟨dataViews⟩ := o
  cases dataViews with
  | none => rfl
  | some dvs =>
    cases dvs with
    | nil => rfl
    | cons dv0 rest =>
      obtain ⟨categorical, metadata⟩ := dv0
      cases categorical with
      | none => rfl
      | some c =>
        obtain ⟨categories, values⟩ := c
        cases categories with
        | none => rfl
        | some cats =>
          cases cats with
          | nil => simp [malformedGuard] at h
          | cons cat0 cs =>
            obtain ⟨src, catvals⟩ := cat0
            cases src with
            | none => rfl
            | some s =>
              cases values with
              | none => rfl
              | some vals => simp [malformedGuard] at h

/-- Witness for C4's amended theorem: absent `dataViews` yields the empty
view model. -/
theorem visualTransform_guard_fallback_witness :
    visualTransform stEx { dataViews := none } = some emptyViewModel :=
  visualTransform_guard_fallback stEx { dataViews := none } rfl

/-- Counterexample to C4 as stated: an input whose `categorical.values` is
absent - one of the claim's malformed shapes - but whose `categories` is
present and empty.  The guard's own test `categories[0].source` (line 143)
reads a property of `undefined` and faults, so `visualTransform` does not
return the empty view model there. -/
theorem visualTransform_guard_gap_cex :
    visualTransform stEx optsValuesAbsentEmptyCats = none ∧
      visualTransform stEx optsValuesAbsentEmptyCats ≠ some emptyViewModel := by
  exact ⟨rfl, by decide⟩

/-- C5 (amended): `visualTransform` returns a view model exactly on the
inputs outside `faultShape`; on the three `faultShape` shapes (`categories`
present but empty, `metadata` absent, `values` present but empty) it faults
with a JS `TypeError` instead of returning. -/
theorem visualTransform_total_iff (st : BarChartState)
    (o : VisualUpdateOptions) :
    (visualTransform st o).isSome = !faultShape o := by
  obtain ⟨dataViews⟩ := o
  cases dataViews with
  | none => rfl
  | some dvs =>
    cases dvs with
    | nil => rfl
    | cons dv0 rest =>
      obtain ⟨categorical, metadata⟩ := dv0
      cases categorical with
      | none => rfl
      | some c =>
        obtain ⟨categories, values⟩ := c
        cases categories with
        | none => rfl
        | some cats =>
          cases cats with
          | nil => rfl
          | cons cat0 cs =>
            obtain ⟨src, catvals⟩ := cat0
            cases src with
            | none => rfl
            | some s =>
              cases values with
              | none => rfl
              | some vals =>
                cases metadata with
                | none => rfl
                | some md =>
                  cases vals with
                  | nil => rfl
                  | cons v0 vrest => rfl

/-- Counterexample to C5 as stated: a data view whose `categories` array is
present but empty (all other pieces well-formed) makes `visualTransform`
fault on the guard's `categories[0].source` read rather than return any
view model, so the function is not total over input shapes. -/
theorem visualTransform_fault_cex :
    visualTransform stEx optsEmptyCats = none := rfl

/-- C6: the Y-axis auto-scaling adjustment is optional: with the parsed
settings' `autoAdjustment` off, `update` forces the adjustment to `0`, so
the y-scale domain is `[0, dataMax]`; with it on, the `dataAdjustment`
computed by `visualTransform` is the domain's lower bound. -/
theorem update_autoAdjustment_domain (parsed : VisualSettings)
    (st : BarChartState) (o : VisualUpdateOptions) (vm : BarChartViewModel)
    (h : visualTransform { st with visualSettings := parsed } o = some vm) :
    (parsed.barCharSettings.autoAdjustment = false →
      updateYScaleDomain parsed st o = some (0, vm.dataMax)) ∧
    (parsed.barCharSettings.autoAdjustment = true →
      updateYScaleDomain parsed st o = some (vm.dataAdjustment, vm.dataMax)) := by
  unfold updateYScaleDomain
  rw [h]
  constructor
  · intro ha; simp [ha]
  · intro ha; simp [ha]

/-- Witness for C6: with `autoAdjustment := false` the domain's lower bound
is forced to `0` on the example input. -/
theorem update_autoAdjustment_domain_witness :
    ((({ barCharSettings := { autoAdjustment := false } } :
        VisualSettings)).barCharSettings.autoAdjustment = false →
      updateYScaleDomain { barCharSettings := { autoAdjustment := false } }
        stEx optsEx =
        some (0, (populate { autoAdjustment := false } catColEx
          { displayName := "Month" } valColEx).dataMax)) ∧
    ((({ barCharSettings := { autoAdjustment := false } } :
        VisualSettings)).barCharSettings.autoAdjustment = true →
      updateYScaleDomain { barCharSettings := { autoAdjustment := false } }
        stEx optsEx =
        some ((populate { autoAdjustment := false } catColEx
          { displayName := "Month" } valColEx).dataAdjustment,
          (populate { autoAdjustment := false } catColEx
            { displayName := "Month" } valColEx).dataMax)) :=
  update_autoAdjustment_domain
    { barCharSettings := { autoAdjustment := false } } stEx optsEx
    (populate { autoAdjustment := false } catColEx
      { displayName := "Month" } valColEx) rfl

/-- C7: the view model is a function of the update options and the parsed
settings alone: two instance states agreeing on `visualSettings` (however
much their other fields differ) give identical `visualTransform` results,
so nothing retained from earlier updates can influence the result. -/
theorem visualTransform_stateless (s1 s2 : BarChartState)
    (o : VisualUpdateOptions) (h : s1.visualSettings = s2.visualSettings) :
    visualTransform s1 o = visualTransform s2 o := by
  unfold visualTransform
  rw [h]

/-- Witness for C7: two states differing in locale and in the stale
`barChartSettings` field but sharing `visualSettings` transform the example
input identically. -/
theorem visualTransform_stateless_witness :
    visualTransform stEx optsEx =
      visualTransform
        { locale := "fr-FR",
          barChartSettings := { autoAdjustment := false },
          visualSettings := {} } optsEx :=
  visualTransform_stateless stEx
    { locale := "fr-FR",
      barChartSettings := { autoAdjustment := false },
      visualSettings := {} } optsEx rfl
